import Mathlib

/-
  Verification of the provider-fallback orchestration in
  `functions/generate-video/index.ts`.

  The handler is a single `serve` callback.  We embed it shallowly:

  * the platform pieces the handler calls (`req.json()`, `JSON.parse`,
    `fetch`, `Deno.env.get`, `Response.text()`, `TextEncoder`, `btoa`)
    are modelled as explicit inputs or as executable Lean functions;
  * the two provider blocks (Stable Video Diffusion, lines 88-156, and
    I2VGen-XL, lines 159-225) are textually identical up to the model
    name and the outbound body, so they are embedded as one definition
    `attemptBlock` instantiated twice, mirroring the duplication;
  * the handler returns, besides the HTTP response, the ordered list of
    provider endpoints actually fetched, so that "no provider was
    called" is a statable property.
-/

/-! ### String utilities (JS `String.prototype.includes`) -/

/-- `leadMatch l pat` is true when `pat` is an initial segment of `l`. -/
def leadMatch : List Char → List Char → Bool
  | _, [] => true
  | [], _ :: _ => false
  | a :: as, b :: bs => a == b && leadMatch as bs

/-- `containsSub pat l` is true when `pat` occurs contiguously in `l`. -/
def containsSub (pat : List Char) : List Char → Bool
  | [] => leadMatch [] pat
  | a :: as => leadMatch (a :: as) pat || containsSub pat as

/-- Model of JS `s.includes(pat)`: substring containment. -/
def includesSub (s pat : String) : Bool :=
  containsSub pat.toList s.toList

/-- `stripLead p l` removes the exact leading segment `p` from `l`. -/
def stripLead : List Char → List Char → Option (List Char)
  | [], l => some l
  | _ :: _, [] => none
  | p :: ps, a :: as => if p == a then stripLead ps as else none

/-! ### UTF-8 (models `Response.text()` and `TextEncoder.encode`) -/

/-- Standard UTF-8 encoding of one Unicode scalar value. -/
def utf8EncodeChar (c : Nat) : List Nat :=
  if c < 0x80 then [c]
  else if c < 0x800 then [0xC0 + c / 64, 0x80 + c % 64]
  else if c < 0x10000 then [0xE0 + c / 4096, 0x80 + c / 64 % 64, 0x80 + c % 64]
  else [0xF0 + c / 262144, 0x80 + c / 4096 % 64, 0x80 + c / 64 % 64, 0x80 + c % 64]

/-- UTF-8 encoding of a list of scalar values (JS `TextEncoder.encode`). -/
def utf8EncodeScalars (cs : List Nat) : List Nat :=
  cs.foldr (fun c acc => utf8EncodeChar c ++ acc) []

/-- UTF-8 bytes of a Lean string. -/
def utf8Encode (s : String) : List Nat :=
  utf8EncodeScalars (s.toList.map Char.toNat)

/-- One step of WHATWG UTF-8 decoding with replacement: given a lead
byte and the bytes after it, return the decoded scalar (`0xFFFD` on a
malformed sequence) and the number of continuation bytes consumed
(decoding resumes at the first unconsumed, i.e. offending, byte). -/
def utf8Step (b1 : Nat) (rest : List Nat) : Nat × Nat :=
  if b1 ≤ 0x7F then (b1, 0)
  else if 0xC2 ≤ b1 ∧ b1 ≤ 0xDF then
    match rest with
    | [] => (0xFFFD, 0)
    | b2 :: _ =>
      if 0x80 ≤ b2 ∧ b2 ≤ 0xBF then ((b1 - 0xC0) * 64 + (b2 - 0x80), 1)
      else (0xFFFD, 0)
  else if 0xE0 ≤ b1 ∧ b1 ≤ 0xEF then
    match rest with
    | [] => (0xFFFD, 0)
    | b2 :: rest2 =>
      if (if b1 == 0xE0 then 0xA0 else 0x80) ≤ b2 ∧
          b2 ≤ (if b1 == 0xED then 0x9F else 0xBF) then
        match rest2 with
        | [] => (0xFFFD, 1)
        | b3 :: _ =>
          if 0x80 ≤ b3 ∧ b3 ≤ 0xBF then
            ((b1 - 0xE0) * 4096 + (b2 - 0x80) * 64 + (b3 - 0x80), 2)
          else (0xFFFD, 1)
      else (0xFFFD, 0)
  else if 0xF0 ≤ b1 ∧ b1 ≤ 0xF4 then
    match rest with
    | [] => (0xFFFD, 0)
    | b2 :: rest2 =>
      if (if b1 == 0xF0 then 0x90 else 0x80) ≤ b2 ∧
          b2 ≤ (if b1 == 0xF4 then 0x8F else 0xBF) then
        match rest2 with
        | [] => (0xFFFD, 1)
        | b3 :: rest3 =>
          if 0x80 ≤ b3 ∧ b3 ≤ 0xBF then
            match rest3 with
            | [] => (0xFFFD, 2)
            | b4 :: _ =>
              if 0x80 ≤ b4 ∧ b4 ≤ 0xBF then
                ((b1 - 0xF0) * 262144 + (b2 - 0x80) * 4096 +
                    (b3 - 0x80) * 64 + (b4 - 0x80), 3)
              else (0xFFFD, 2)
          else (0xFFFD, 1)
      else (0xFFFD, 0)
  else (0xFFFD, 0)

/-- Decoding loop.  Every step consumes the lead byte plus
`(utf8Step b1 rest).2 ≤ 3` continuation bytes, so with the list's
length as fuel the guard branch is never reached; the fuel only makes
the recursion structural (hence kernel-reducible). -/
def utf8DecodeGo : Nat → List Nat → List Nat
  | _, [] => []
  | 0, _ :: _ => []
  | fuel + 1, b1 :: rest =>
    (utf8Step b1 rest).1 :: utf8DecodeGo fuel (rest.drop (utf8Step b1 rest).2)

/-- WHATWG UTF-8 decoding with U+FFFD replacement, as performed by
`Response.text()` on the raw provider payload. -/
def utf8DecodeReplace (l : List Nat) : List Nat :=
  utf8DecodeGo l.length l

/-! ### Base64 (models `btoa` over the bytes of `String.fromCharCode`) -/

def b64Alphabet : List Char :=
  "ABCDEFGHIJKLMNOPQRSTUVWXYZabcdefghijklmnopqrstuvwxyz0123456789+/".toList

def b64Char (n : Nat) : Char := b64Alphabet.getD n '?'

def b64Index (c : Char) : Option Nat :=
  b64Alphabet.findIdx? (fun d => d == c)

/-- Standard base64 encoding with `=` padding, as produced by `btoa`. -/
def base64Encode : List Nat → List Char
  | [] => []
  | [a] => [b64Char (a / 4), b64Char (a % 4 * 16), '=', '=']
  | [a, b] => [b64Char (a / 4), b64Char (a % 4 * 16 + b / 16), b64Char (b % 16 * 4), '=']
  | a :: b :: c :: rest =>
    b64Char (a / 4) :: b64Char (a % 4 * 16 + b / 16) ::
      b64Char (b % 16 * 4 + c / 64) :: b64Char (c % 64) :: base64Encode rest

/-- Standard base64 decoding with `=` padding, as performed by `atob`. -/
def base64Decode : List Char → Option (List Nat)
  | [] => some []
  | [c1, c2, '=', '='] =>
    match b64Index c1, b64Index c2 with
    | some g1, some g2 => some [g1 * 4 + g2 / 16]
    | _, _ => none
  | [c1, c2, c3, '='] =>
    match b64Index c1, b64Index c2, b64Index c3 with
    | some g1, some g2, some g3 => some [g1 * 4 + g2 / 16, g2 % 16 * 16 + g3 / 4]
    | _, _, _ => none
  | c1 :: c2 :: c3 :: c4 :: rest =>
    match b64Index c1, b64Index c2, b64Index c3, b64Index c4, base64Decode rest with
    | some g1, some g2, some g3, some g4, some bs =>
      some ((g1 * 4 + g2 / 16) :: (g2 % 16 * 16 + g3 / 4) :: (g3 % 4 * 64 + g4) :: bs)
    | _, _, _, _, _ => none
  | _ => none

/-! ### Data model -/

/-- The destructured fields of `await req.json()`
(`const { imageUrl, prompt, animationStyle } = ...`), each possibly
absent.  `none` models an absent (`undefined`) field. -/
structure VideoGenerationRequest where
  imageUrl : Option String
  prompt : Option String
  animationStyle : Option String
deriving DecidableEq

/-- What the handler observes of a `JSON.parse` result: only the
`error` property is ever read.  `errorField = some msg` models a truthy
`error` property with message `msg`; `errorField = none` models an
absent (or otherwise falsy) `error` property. -/
structure ParsedJson where
  errorField : Option String
deriving DecidableEq

/-- Outcome of one `fetch` call as seen by the handler after
`await response.text()`: either a settled response with a status and a
body string, or a thrown exception (network error etc.). -/
inductive Fetch where
  | resp (status : Nat) (body : String)
  | thrown (msg : String)
deriving DecidableEq

/-- The JSON response bodies the handler constructs, one `Option` field
per property that some branch emits, plus the HTTP status. -/
structure HResponse where
  status : Nat
  success : Option Bool := none
  videoUrl : Option String := none
  model : Option String := none
  error : Option String := none
  retryAfter : Option Nat := none
  details : Option String := none
  demo : Option Bool := none
deriving DecidableEq

/-- Response to an `OPTIONS` request: `new Response(null, ...)`, status 200. -/
def corsResponse : HResponse := { status := 200 }

/-- Lines 28-36: non-POST methods. -/
def methodNotAllowedResponse : HResponse :=
  { status := 405, error := some "Method not allowed" }

/-- Lines 41-52: missing/empty `imageUrl`. -/
def missingImageResponse : HResponse :=
  { status := 400, success := some false, error := some "Image URL is required" }

/-- Lines 55-66: missing API key. -/
def apiKeyMissingResponse : HResponse :=
  { status := 500, success := some false,
    error := some "Hugging Face API key not configured" }

/-- Lines 141-151 and 210-220: model-loading 503. -/
def loadingResponse : HResponse :=
  { status := 503, success := some false,
    error := some "AI model is loading, please try again in 20-30 seconds",
    retryAfter := some 30 }

/-- Lines 230-241: final 503 after both providers fell through. -/
def exhaustedResponse : HResponse :=
  { status := 503, success := some false,
    error := some "Video generation temporarily unavailable. The AI models may be loading or experiencing high demand. Please try again in a few minutes.",
    retryAfter := some 60, demo := some true }

/-- Lines 246-256: the outer catch.  `msg` is `error.message`. -/
def internalErrorResponse (msg : String) : HResponse :=
  { status := 500, success := some false,
    error := some "Internal server error during video generation",
    details := some msg }

/-! ### Prompt composition and outbound request bodies -/

/-- Lines 69-81: `prompt || 'animate this image with natural motion'`
followed by the style switch (which has no default case). -/
def enhancedPrompt (prompt : Option String) (animationStyle : Option String) : String :=
  let base :=
    if prompt.getD "" == "" then "animate this image with natural motion"
    else prompt.getD ""
  if animationStyle == some "smooth" then
    base ++ ", smooth flowing motion, gentle movement, soft transitions, subtle animation"
  else if animationStyle == some "dynamic" then
    base ++ ", dynamic motion, energetic movement, vibrant action, lively animation"
  else if animationStyle == some "cinematic" then
    base ++ ", cinematic motion, dramatic movement, film-like quality, professional animation"
  else base

/-- A JSON parameter value occurring in an outbound provider body. -/
inductive PVal where
  | s (v : String)
  | n (v : Nat)
  | q (v : ℚ)
deriving DecidableEq

/-- Line 101: `animationStyle === 'dynamic' ? 180 : animationStyle === 'cinematic' ? 120 : 100`. -/
def svdMotion (animationStyle : Option String) : Nat :=
  if animationStyle == some "dynamic" then 180
  else if animationStyle == some "cinematic" then 120
  else 100

/-- Lines 99-104: the `parameters` object of the Stable Video Diffusion
request body. -/
def svdParameters (animationStyle : Option String) : List (String × PVal) :=
  [("num_frames", PVal.n 14),
   ("motion_bucket_id", PVal.n (svdMotion animationStyle)),
   ("fps", PVal.n 6),
   ("noise_aug_strength", PVal.q (2 / 100))]

/-- Lines 172-176: the `parameters` object of the I2VGen-XL request
body.  It carries only the image reference, a frame count, and an fps
value. -/
def i2vParameters (imageUrl : String) : List (String × PVal) :=
  [("image", PVal.s imageUrl),
   ("num_frames", PVal.n 16),
   ("fps", PVal.n 8)]

/-! ### Response classification and the provider chain -/

/-- `Response.ok`: status in the 2xx range. -/
def statusOk (status : Nat) : Bool := decide (200 ≤ status ∧ status < 300)

/-- Lines 140 and 209:
`responseText.includes('loading') || responseText.includes('Loading')`. -/
def hasLoadingMarker (text : String) : Bool :=
  includesSub text "loading" || includesSub text "Loading"

/-- Lines 122-124 and 192-194: encode the (already text-decoded)
response body back to UTF-8 bytes, base64 it, and wrap it as a data
URL. -/
def videoDataUrl (responseText : String) : String :=
  "data:video/mp4;base64," ++ String.mk (base64Encode (utf8Encode responseText))

/-- Lines 126-135 and 196-205: the 200 success response built inside
the catch of the inner parse block. -/
def successResponse (responseText modelName : String) : HResponse :=
  { status := 200, success := some true,
    videoUrl := some (videoDataUrl responseText),
    model := some modelName }

/-- Lines 113-137 (and identically 185-207): the body of
`if (response.ok) { try { ... } catch { ... return success ... } }`.
The inner `try` parses the body and, on a truthy `error` property,
executes `throw new Error(jsonResponse.error)`; that throw is caught by
the `catch` of the *same* `try`, whose block returns the success
response.  So the catch (and with it the success return) runs both when
`JSON.parse` throws and when the parsed object carries an error field;
only a parse that succeeds without an error field falls through. -/
def okBlock (jsonParse : String → Option ParsedJson)
    (responseText modelName : String) : Option HResponse :=
  let tryOutcome : Except String Unit :=
    match jsonParse responseText with
    | none => Except.error "SyntaxError: Unexpected token"
    | some j =>
      match j.errorField with
      | some e => Except.error e
      | none => Except.ok ()
  match tryOutcome with
  | Except.error _ => some (successResponse responseText modelName)
  | Except.ok _ => none

/-- One provider block (lines 88-156 for Stable Video Diffusion, lines
159-225 for I2VGen-XL; the two are identical up to the model name).
`some r` means the block executed `return r`; `none` means control fell
through to the next block.  A thrown fetch is caught by the block's own
catch, logged, and falls through.  After the `ok` block, the loading
check runs regardless of the status. -/
def attemptBlock (jsonParse : String → Option ParsedJson)
    (modelName : String) : Fetch → Option HResponse
  | Fetch.thrown _ => none
  | Fetch.resp status body =>
    let okReturn := if statusOk status then okBlock jsonParse body modelName else none
    match okReturn with
    | some r => some r
    | none => if hasLoadingMarker body then some loadingResponse else none

/-- Lines 38-241: the POST path of the handler.  `body` is the outcome
of `await req.json()` (`Except.error msg` models a thrown parse error
whose message is `msg`, handled by the outer catch of lines 243-257).
`svd` and `i2v` are the outcomes of the two provider fetches.  The
second component of the result is the ordered list of provider models
actually fetched. -/
def handlePost (jsonParse : String → Option ParsedJson) (apiKey : Option String)
    (body : Except String VideoGenerationRequest) (svd i2v : Fetch) :
    HResponse × List String :=
  match body with
  | Except.error msg => (internalErrorResponse msg, [])
  | Except.ok req =>
    if req.imageUrl.getD "" == "" then (missingImageResponse, [])
    else if apiKey.getD "" == "" then (apiKeyMissingResponse, [])
    else
      match attemptBlock jsonParse "stable-video-diffusion" svd with
      | some r => (r, ["stable-video-diffusion"])
      | none =>
        match attemptBlock jsonParse "i2vgen-xl" i2v with
        | some r => (r, ["stable-video-diffusion", "i2vgen-xl"])
        | none => (exhaustedResponse, ["stable-video-diffusion", "i2vgen-xl"])

/-- The whole `serve` callback: OPTIONS preflight, 405 for other
non-POST methods, then the POST path. -/
def handle (method : String) (jsonParse : String → Option ParsedJson)
    (apiKey : Option String) (body : Except String VideoGenerationRequest)
    (svd i2v : Fetch) : HResponse × List String :=
  if method == "OPTIONS" then (corsResponse, [])
  else if method != "POST" then (methodNotAllowedResponse, [])
  else handlePost jsonParse apiKey body svd i2v

/-! ### The result-encoding pipeline on raw payload bytes -/

/-- The success path applied to a raw provider payload of bytes:
`await response.text()` (UTF-8 decode with replacement),
`new TextEncoder().encode(...)`, `btoa(String.fromCharCode(...))`, and
the data-URL prefix of lines 122-124. -/
def resultEncode (payload : List Nat) : String :=
  "data:video/mp4;base64," ++
    String.mk (base64Encode (utf8EncodeScalars (utf8DecodeReplace payload)))

/-- Decoding the data reference: strip the data-URL prefix and
base64-decode the remainder. -/
def resultDecode (url : String) : Option (List Nat) :=
  match stripLead "data:video/mp4;base64,".toList url.toList with
  | some rest => base64Decode rest
  | none => none

/-! ### Concrete provider-body fixtures used in the evaluations -/

/-- A provider body that is JSON carrying an explicit error field. -/
def errBody : String := "\x7b\"error\":\"Model error\"\x7d"

/-- A provider body that is JSON carrying no error field. -/
def okBody : String := "\x7b\"status\":\"ok\"\x7d"

/-- A concrete `JSON.parse` environment: `errBody` parses to an object
with a truthy `error` property, `okBody` parses to an object without
one, and every other string fails to parse. -/
def jsonParseEx (s : String) : Option ParsedJson :=
  if s == errBody then some ⟨some "Model error"⟩
  else if s == okBody then some ⟨none⟩
  else none

/-! ### Helper lemmas -/

/-- A provider block whose response has a non-2xx status and a body
containing one of the two loading substrings returns the 503 loading
response. -/
theorem attemptBlock_of_loading (jsonParse : String → Option ParsedJson)
    (modelName : String) (status : Nat) (body : String)
    (hstatus : statusOk status = false) (hmark : hasLoadingMarker body = true) :
    attemptBlock jsonParse modelName (Fetch.resp status body) = some loadingResponse := by
  simp [attemptBlock, hstatus, hmark]

/-! ### Claims -/

/-- C1: the spec says a 2xx body that parses as JSON with an explicit
error field must become a `StructuredError` (recorded, next provider
tried, never a success), and a 2xx body that fails to parse or parses
without an error field must be returned as the binary success payload.
The code does the opposite on both points: the `throw` on an error
field is caught by the catch of the same `try`, whose block returns the
200 success response built from that very body, while a body that
parses *without* an error field falls through past the success return.
This theorem evaluates the provider block at both failing inputs. -/
theorem C1_structured_error_returned_as_success :
    attemptBlock jsonParseEx "stable-video-diffusion" (Fetch.resp 200 errBody)
      = some (successResponse errBody "stable-video-diffusion")
    ∧ (successResponse errBody "stable-video-diffusion").success = some true
    ∧ (successResponse errBody "stable-video-diffusion").status = 200
    ∧ attemptBlock jsonParseEx "stable-video-diffusion" (Fetch.resp 200 okBody) = none :=
  ⟨rfl, rfl, rfl, rfl⟩

/-- C2: whenever a provider attempt is classified `ModelLoading`
(non-2xx status and a body containing a loading marker the code
detects), the chain returns the 503 retryable response at once —
status 503, `success = false`, a positive `retryAfter` — and the
provider list after that attempt is never fetched: when the first
provider is loading, the trace is exactly
`["stable-video-diffusion"]`, independent of the second provider's
behaviour. -/
theorem C2_model_loading_short_circuits (jsonParse : String → Option ParsedJson)
    (k u body : String) (prompt style : Option String) (status : Nat) (svd i2v : Fetch)
    (hu : (u == "") = false) (hk : (k == "") = false)
    (hstatus : statusOk status = false) (hmark : hasLoadingMarker body = true)
    (hsvd : attemptBlock jsonParse "stable-video-diffusion" svd = none) :
    handlePost jsonParse (some k) (Except.ok ⟨some u, prompt, style⟩)
        (Fetch.resp status body) i2v
      = (loadingResponse, ["stable-video-diffusion"])
    ∧ handlePost jsonParse (some k) (Except.ok ⟨some u, prompt, style⟩)
        svd (Fetch.resp status body)
      = (loadingResponse, ["stable-video-diffusion", "i2vgen-xl"])
    ∧ loadingResponse.status = 503
    ∧ loadingResponse.success = some false
    ∧ 0 < (loadingResponse.retryAfter).getD 0 := by
  refine ⟨?_, ?_, rfl, rfl, by decide⟩
  · simp [handlePost, hu, hk,
      attemptBlock_of_loading jsonParse "stable-video-diffusion" status body hstatus hmark]
  · simp [handlePost, hu, hk, hsvd,
      attemptBlock_of_loading jsonParse "i2vgen-xl" status body hstatus hmark]

/-- C2 witness: concrete chain run whose first provider reports 503
with a loading body, and one whose first provider throws while the
second reports loading. -/
theorem C2_model_loading_witness :
    (handlePost (fun _ => none) (some "key")
        (Except.ok ⟨some "https://x/img.png", none, some "dynamic"⟩)
        (Fetch.resp 503 "model is currently loading") (Fetch.thrown "net")
      = (loadingResponse, ["stable-video-diffusion"])
    ∧ handlePost (fun _ => none) (some "key")
        (Except.ok ⟨some "https://x/img.png", none, some "dynamic"⟩)
        (Fetch.thrown "net") (Fetch.resp 503 "model is currently loading")
      = (loadingResponse, ["stable-video-diffusion", "i2vgen-xl"])
    ∧ loadingResponse.status = 503
    ∧ loadingResponse.success = some false
    ∧ 0 < (loadingResponse.retryAfter).getD 0) :=
  C2_model_loading_short_circuits (fun _ => none) "key" "https://x/img.png"
    "model is currently loading" none (some "dynamic") 503
    (Fetch.thrown "net") (Fetch.thrown "net")
    (by decide) (by decide) (by decide) (by decide) rfl

/-- C3 counterexample: a non-2xx response whose body is `"LOADING"`
contains a loading marker in upper case, yet the code's check
(`includes('loading') || includes('Loading')`) misses it: the block
falls through instead of returning the loading response, and a full
chain run proceeds to the second provider and ends exhausted. -/
theorem C3_uppercase_loading_not_detected :
    hasLoadingMarker "LOADING" = false
    ∧ attemptBlock (fun _ => none) "stable-video-diffusion" (Fetch.resp 503 "LOADING") = none
    ∧ handlePost (fun _ => none) (some "key")
        (Except.ok ⟨some "https://x/img.png", none, some "dynamic"⟩)
        (Fetch.resp 503 "LOADING") (Fetch.thrown "net")
      = (exhaustedResponse, ["stable-video-diffusion", "i2vgen-xl"]) :=
  ⟨rfl, rfl, rfl⟩

/-- C3 amended: for every non-2xx provider response whose body contains
the exact substring `"loading"` or `"Loading"` (other casings such as
`"LOADING"` are not detected), the block returns the 503 loading
response with retry delay 30, regardless of whether the body would
parse as structured data (no parsing is attempted on a non-2xx
response). -/
theorem C3_loading_marker_amended (jsonParse : String → Option ParsedJson)
    (modelName : String) (status : Nat) (body : String)
    (hstatus : statusOk status = false) (hmark : hasLoadingMarker body = true) :
    attemptBlock jsonParse modelName (Fetch.resp status body) = some loadingResponse
    ∧ loadingResponse.status = 503
    ∧ loadingResponse.retryAfter = some 30
    ∧ hasLoadingMarker "LOADING" = false :=
  ⟨attemptBlock_of_loading jsonParse modelName status body hstatus hmark, rfl, rfl, rfl⟩

/-- C3 witness: the amended statement applied to a 500 response whose
body is JSON-like text containing `"loading"`, under an arbitrary parse
environment that would even parse it successfully. -/
theorem C3_loading_marker_witness :
    (attemptBlock (fun _ => some ⟨none⟩) "stable-video-diffusion"
        (Fetch.resp 500 "estimated loading time 20s")
      = some loadingResponse
    ∧ loadingResponse.status = 503
    ∧ loadingResponse.retryAfter = some 30
    ∧ hasLoadingMarker "LOADING" = false) :=
  C3_loading_marker_amended (fun _ => some ⟨none⟩) "stable-video-diffusion" 500
    "estimated loading time 20s" (by decide) (by decide)

/-- C4 counterexample: the request
`{imageUrl: "x", animationStyle: "weird"}` is not rejected: no 400
response is produced, both providers are fetched, and the run ends with
the 503 exhausted response. -/
theorem C4_unknown_style_not_rejected :
    handle "POST" (fun _ => none) (some "key")
        (Except.ok ⟨some "x", none, some "weird"⟩)
        (Fetch.thrown "e1") (Fetch.thrown "e2")
      = (exhaustedResponse, ["stable-video-diffusion", "i2vgen-xl"])
    ∧ exhaustedResponse.status ≠ 400 :=
  ⟨rfl, by decide⟩

/-- C4 amended: requests with an absent or empty `imageUrl` are
rejected with the 400 missing-image response before any provider call;
`animationStyle` is never validated — every request with a non-empty
`imageUrl` (and a configured key) proceeds to the first provider
regardless of its style value, recognized or not. -/
theorem C4_validation_amended (jsonParse : String → Option ParsedJson)
    (apiKey : Option String) (k u styleName : String)
    (prompt style : Option String) (svd i2v : Fetch)
    (hu : (u == "") = false) (hk : (k == "") = false) :
    handlePost jsonParse apiKey (Except.ok ⟨none, prompt, style⟩) svd i2v
      = (missingImageResponse, [])
    ∧ handlePost jsonParse apiKey (Except.ok ⟨some "", prompt, style⟩) svd i2v
      = (missingImageResponse, [])
    ∧ missingImageResponse.status = 400
    ∧ (handlePost jsonParse (some k) (Except.ok ⟨some u, prompt, some styleName⟩) svd i2v).2.head?
      = some "stable-video-diffusion" := by
  refine ⟨rfl, rfl, rfl, ?_⟩
  cases hsvd : attemptBlock jsonParse "stable-video-diffusion" svd with
  | some r => simp [handlePost, hu, hk, hsvd]
  | none =>
    cases hi2v : attemptBlock jsonParse "i2vgen-xl" i2v with
    | some r => simp [handlePost, hu, hk, hsvd, hi2v]
    | none => simp [handlePost, hu, hk, hsvd, hi2v]

/-- C4 witness: the amended statement at a concrete request with the
unrecognized style `"weird"`. -/
theorem C4_validation_witness :
    (handlePost (fun _ => none) (some "key") (Except.ok ⟨none, none, some "weird"⟩)
        (Fetch.thrown "e1") (Fetch.thrown "e2")
      = (missingImageResponse, [])
    ∧ handlePost (fun _ => none) (some "key") (Except.ok ⟨some "", none, some "weird"⟩)
        (Fetch.thrown "e1") (Fetch.thrown "e2")
      = (missingImageResponse, [])
    ∧ missingImageResponse.status = 400
    ∧ (handlePost (fun _ => none) (some "key")
        (Except.ok ⟨some "https://x/img.png", none, some "weird"⟩)
        (Fetch.thrown "e1") (Fetch.thrown "e2")).2.head?
      = some "stable-video-diffusion") :=
  C4_validation_amended (fun _ => none) (some "key") "key" "https://x/img.png" "weird"
    none (some "weird") (Fetch.thrown "e1") (Fetch.thrown "e2") (by decide) (by decide)

/-- C5: the spec says that when the first provider fails with a
structured error the chain must move on and, if the second provider's
response is a binary success, return success attributed to
`i2vgen-xl`.  In the code, a 2xx first-provider response that parses as
JSON with an error field returns success attributed to
`stable-video-diffusion` instead (the swallowed `throw` of C1), and the
second provider is never fetched: the trace stops at the first
provider even though the second held a perfectly good binary payload. -/
theorem C5_success_misattributed_on_structured_error :
    handlePost jsonParseEx (some "key")
        (Except.ok ⟨some "https://x/img.png", none, some "dynamic"⟩)
        (Fetch.resp 200 errBody) (Fetch.resp 200 "RAWVIDEOBYTES")
      = (successResponse errBody "stable-video-diffusion", ["stable-video-diffusion"])
    ∧ (successResponse errBody "stable-video-diffusion").model
      = some "stable-video-diffusion" :=
  ⟨rfl, rfl⟩

/-- C6 counterexample: with both providers failing, the final response
is the constant `exhaustedResponse`: it is identical across runs whose
providers failed with entirely different messages, and its error text
does not name the attempted providers — so it cannot carry the ordered
provider list or the recorded failure messages the claim requires. -/
theorem C6_exhausted_lacks_diagnostics :
    (handlePost (fun _ => none) (some "key")
        (Except.ok ⟨some "https://x/img.png", none, some "smooth"⟩)
        (Fetch.resp 500 "first failure message") (Fetch.resp 500 "second failure message")).1
      = exhaustedResponse
    ∧ (handlePost (fun _ => none) (some "key")
        (Except.ok ⟨some "https://x/img.png", none, some "smooth"⟩)
        (Fetch.resp 404 "a different failure") (Fetch.resp 418 "teapot")).1
      = exhaustedResponse
    ∧ includesSub ((exhaustedResponse.error).getD "") "stable-video-diffusion" = false
    ∧ includesSub ((exhaustedResponse.error).getD "") "i2vgen-xl" = false
    ∧ includesSub ((exhaustedResponse.error).getD "") "first failure message" = false :=
  ⟨rfl, rfl, rfl, rfl, rfl⟩

/-- C6 amended: when both provider blocks fall through (no success
return and no loading return), the run returns the fixed 503
exhausted response — generic temporarily-unavailable message,
`success = false`, `retryAfter = 60`, `demo = true` — with both
providers having been fetched in priority order, but the response body
carries neither the list of attempted providers nor their failure
messages. -/
theorem C6_exhausted_amended (jsonParse : String → Option ParsedJson)
    (k u : String) (prompt style : Option String) (svd i2v : Fetch)
    (hu : (u == "") = false) (hk : (k == "") = false)
    (h1 : attemptBlock jsonParse "stable-video-diffusion" svd = none)
    (h2 : attemptBlock jsonParse "i2vgen-xl" i2v = none) :
    handlePost jsonParse (some k) (Except.ok ⟨some u, prompt, style⟩) svd i2v
      = (exhaustedResponse, ["stable-video-diffusion", "i2vgen-xl"])
    ∧ exhaustedResponse.status = 503
    ∧ exhaustedResponse.success = some false
    ∧ exhaustedResponse.retryAfter = some 60
    ∧ exhaustedResponse.demo = some true
    ∧ includesSub ((exhaustedResponse.error).getD "") "stable-video-diffusion" = false := by
  refine ⟨?_, rfl, rfl, rfl, rfl, rfl⟩
  simp [handlePost, hu, hk, h1, h2]

/-- C6 witness: the amended statement at a concrete run where both
providers return plain 500 failures. -/
theorem C6_exhausted_witness :
    (handlePost (fun _ => none) (some "key")
        (Except.ok ⟨some "https://x/img.png", none, some "smooth"⟩)
        (Fetch.resp 500 "boom one") (Fetch.resp 500 "boom two")
      = (exhaustedResponse, ["stable-video-diffusion", "i2vgen-xl"])
    ∧ exhaustedResponse.status = 503
    ∧ exhaustedResponse.success = some false
    ∧ exhaustedResponse.retryAfter = some 60
    ∧ exhaustedResponse.demo = some true
    ∧ includesSub ((exhaustedResponse.error).getD "") "stable-video-diffusion" = false) :=
  C6_exhausted_amended (fun _ => none) "key" "https://x/img.png" none (some "smooth")
    (Fetch.resp 500 "boom one") (Fetch.resp 500 "boom two")
    (by decide) (by decide) (by decide) (by decide)

/-- C7: the encoding pipeline is `bytes → Response.text() (UTF-8 decode
with replacement) → TextEncoder → btoa → data URL`, so decoding the
data reference yields the re-encoded replacement bytes, not the
original payload: the single byte `0xFF` (which no valid video file
avoids at scale, and which is not valid UTF-8) comes back as the
three-byte replacement sequence `EF BF BD`.  The empty payload, by
contrast, does round-trip. -/
theorem C7_encode_not_reversible :
    resultDecode (resultEncode [255]) = some [239, 191, 189]
    ∧ resultDecode (resultEncode []) = some ([] : List Nat)
    ∧ [239, 191, 189] ≠ [255] :=
  ⟨rfl, rfl, by decide⟩

/-- C8 counterexample: for the style `dynamic` the motion-intensity
value is 180, yet the I2VGen-XL outbound parameter object carries no
parameter at all with that value (nor with any of the three motion
values): the second adapter does not map the style's motion intensity
onto any parameter. -/
theorem C8_i2v_no_motion_param :
    svdMotion (some "dynamic") = 180
    ∧ (i2vParameters "https://x/img.png").filter
        (fun kv => decide (kv.2 = PVal.n 180) || decide (kv.2 = PVal.n 120)
          || decide (kv.2 = PVal.n 100)) = [] :=
  ⟨rfl, rfl⟩

/-- C8 amended: the motion-intensity value is 180 for `dynamic`, 120
for `cinematic`, and 100 otherwise (including `smooth`), and the
Stable Video Diffusion adapter maps it onto its `motion_bucket_id`
parameter; the I2VGen-XL adapter's parameter object contains no motion
parameter (no entry carries any of the three motion values). -/
theorem C8_motion_mapping_amended (u : String) :
    svdMotion (some "smooth") = 100
    ∧ svdMotion (some "dynamic") = 180
    ∧ svdMotion (some "cinematic") = 120
    ∧ (∀ style : Option String,
        ("motion_bucket_id", PVal.n (svdMotion style)) ∈ svdParameters style)
    ∧ (i2vParameters u).filter
        (fun kv => decide (kv.2 = PVal.n 180) || decide (kv.2 = PVal.n 120)
          || decide (kv.2 = PVal.n 100)) = [] := by
  refine ⟨rfl, rfl, rfl, ?_, rfl⟩
  intro style
  simp [svdParameters]

/-- C8 witness: the amended statement at a concrete image URL. -/
theorem C8_motion_mapping_witness :
    (svdMotion (some "smooth") = 100
    ∧ svdMotion (some "dynamic") = 180
    ∧ svdMotion (some "cinematic") = 120
    ∧ (∀ style : Option String,
        ("motion_bucket_id", PVal.n (svdMotion style)) ∈ svdParameters style)
    ∧ (i2vParameters "https://x/img.png").filter
        (fun kv => decide (kv.2 = PVal.n 180) || decide (kv.2 = PVal.n 120)
          || decide (kv.2 = PVal.n 100)) = []) :=
  C8_motion_mapping_amended "https://x/img.png"

/-- C9 counterexample: when the pipeline throws (here: the body parse),
the 500 response's `details` field contains the raw exception message
verbatim — the message is included in the body returned to the caller,
contrary to the claim that only a sanitized message is exposed. -/
theorem C9_details_exposes_raw_message :
    ((handle "POST" (fun _ => none) (some "key")
        (Except.error "ReferenceError: secret internal state") (Fetch.thrown "a")
        (Fetch.thrown "b")).1).details
      = some "ReferenceError: secret internal state" :=
  rfl

/-- C9 amended: an unexpected exception in the pipeline yields status
500 with a generic `error` field, but the response also carries a
`details` field holding the raw exception message. -/
theorem C9_internal_error_amended (jsonParse : String → Option ParsedJson)
    (apiKey : Option String) (m : String) (svd i2v : Fetch) :
    handle "POST" jsonParse apiKey (Except.error m) svd i2v = (internalErrorResponse m, [])
    ∧ (internalErrorResponse m).status = 500
    ∧ (internalErrorResponse m).error = some "Internal server error during video generation"
    ∧ (internalErrorResponse m).details = some m :=
  ⟨rfl, rfl, rfl, rfl⟩

/-- C9 witness: the amended statement at a concrete exception message. -/
theorem C9_internal_error_witness :
    (handle "POST" (fun _ => none) none (Except.error "TypeError: boom")
        (Fetch.thrown "a") (Fetch.thrown "b")
      = (internalErrorResponse "TypeError: boom", [])
    ∧ (internalErrorResponse "TypeError: boom").status = 500
    ∧ (internalErrorResponse "TypeError: boom").error
      = some "Internal server error during video generation"
    ∧ (internalErrorResponse "TypeError: boom").details = some "TypeError: boom") :=
  C9_internal_error_amended (fun _ => none) none "TypeError: boom"
    (Fetch.thrown "a") (Fetch.thrown "b")

/-- C10: a POST request whose body fails to parse as JSON is handled by
the outer catch: status 500 (not a 400 validation rejection) and no
provider is fetched. -/
theorem C10_invalid_json_yields_500 (jsonParse : String → Option ParsedJson)
    (apiKey : Option String) (m : String) (svd i2v : Fetch) :
    (handle "POST" jsonParse apiKey (Except.error m) svd i2v).1.status = 500
    ∧ (handle "POST" jsonParse apiKey (Except.error m) svd i2v).2 = [] :=
  ⟨rfl, rfl⟩

/-- C10 witness: a concrete POST with an unparseable body. -/
theorem C10_invalid_json_witness :
    ((handle "POST" (fun _ => none) (some "key")
        (Except.error "SyntaxError: Unexpected token x") (Fetch.thrown "a")
        (Fetch.thrown "b")).1.status = 500
    ∧ (handle "POST" (fun _ => none) (some "key")
        (Except.error "SyntaxError: Unexpected token x") (Fetch.thrown "a")
        (Fetch.thrown "b")).2 = []) :=
  C10_invalid_json_yields_500 (fun _ => none) (some "key")
    "SyntaxError: Unexpected token x" (Fetch.thrown "a") (Fetch.thrown "b")
